import Mathlib

/-!
A shallow embedding of the temporal layer pipeline of the
cattle-tracking map front-ends (app.js, src/unnamed/part_000..002),
together with proofs of the frozen claims about it.

Conventions of the embedding:
* JavaScript numbers are modelled as rationals (ℚ); `NaN` is modelled by
  `Option ℚ = none` at conversion boundaries (`Number(x)`).
* Parsed JSON documents are the inductive `Json` below; the JavaScript
  value `undefined` (absent property) is `Option Json = none`.
* Network effects are modelled by an oracle `World : Request → FetchResponse`
  supplying the response for each request issued; a request records the URL and
  the cache mode it was issued with, so cache behaviour is provable.
* Exceptions inside a `try` block are modelled with `Except`; a function that
  catches them is total.
-/

/-- A parsed JSON value, as produced by `res.json()`. -/
inductive Json where
  | null : Json
  | bool : Bool → Json
  | num : ℚ → Json
  | str : String → Json
  | arr : List Json → Json
  | obj : List (String × Json) → Json
deriving Repr

/-- Character list → optional natural number (all-digit parse). -/
def digitsToNat : List Char → Option Nat
  | [] => none
  | cs => cs.foldl (fun acc c => match acc with
      | none => none
      | some n => if c.isDigit then some (n * 10 + (c.toNat - 48)) else none)
      (some 0)

/-- Split a character list at a separator character (structural, so it
reduces definitionally on literals). -/
def splitAtChar (sep : Char) : List Char → List Char → List (List Char)
  | [], cur => [cur.reverse]
  | c :: cs, cur =>
      if c = sep then cur.reverse :: splitAtChar sep cs []
      else splitAtChar sep cs (c :: cur)

/-- Value of one hex digit, when it is one. -/
def hexDigitVal (c : Char) : Option Nat :=
  if '0' ≤ c ∧ c ≤ '9' then some (c.toNat - 48)
  else if 'a' ≤ c ∧ c ≤ 'f' then some (c.toNat - 87)
  else if 'A' ≤ c ∧ c ≤ 'F' then some (c.toNat - 55)
  else none

/-- Digit-string value in a radix up to 16; `none` for an empty string or an
out-of-radix digit. -/
def radixToNat (base : Nat) : List Char → Option Nat
  | [] => none
  | cs => cs.foldl (fun acc c =>
      match acc, hexDigitVal c with
      | some n, some d => if d < base then some (n * base + d) else none
      | _, _ => none) (some 0)

/-- Leading sign of a numeric literal: whether it is negative, and the rest. -/
def signSplit : List Char → Bool × List Char
  | '-' :: rest => (true, rest)
  | '+' :: rest => (false, rest)
  | cs => (false, cs)

/-- Unsigned decimal mantissa `digits [. digits]` (either side of the point
may be empty, not both). -/
def decimalMantissa (body : List Char) : Option ℚ :=
  match splitAtChar '.' body [] with
  | [ip] => (digitsToNat ip).map (fun n => (n : ℚ))
  | [ip, fp] =>
      if ip = [] ∧ fp = [] then none
      else (digitsToNat (ip ++ fp)).map (fun n => (n : ℚ) / (10 ^ fp.length : ℚ))
  | _ => none

/-- Signed decimal literal with an optional `e`/`E` exponent. -/
def decimalLit (cs : List Char) : Option ℚ :=
  let (neg, body) := signSplit cs
  let parts := splitAtChar 'e' (body.map (fun c => if c = 'E' then 'e' else c)) []
  let mantExp : Option (ℚ × ℚ) :=
    match parts with
    | [m] => (decimalMantissa m).map (fun q => (q, 1))
    | [m, ecs] =>
        match decimalMantissa m with
        | none => none
        | some q =>
            let (eneg, ebody) := signSplit ecs
            match digitsToNat ebody with
            | none => none
            | some e =>
                some (q, if eneg then 1 / (10 ^ e : ℚ) else (10 ^ e : ℚ))
    | _ => none
  mantExp.map (fun p => (if neg then -p.1 else p.1) * p.2)

/-- Model of JavaScript `Number(s)` on strings: whitespace-trimmed empty
string gives 0; `0x`/`0b`/`0o` radix literals and optional-sign decimal
literals with an optional exponent parse to their value; every other string
is NaN (`none`). The `Infinity` forms are IEEE infinities, which have no
image in ℚ; they are mapped to `none` as well — the one divergence of this
embedding, on a value outside the 0..1 data contract. -/
def strToNum (s : String) : Option ℚ :=
  let ws := [' ', '\t', '\n', '\r']
  let cs := s.data.dropWhile (ws.contains ·) |>.reverse.dropWhile (ws.contains ·)
    |>.reverse
  match cs with
  | [] => some 0
  | '0' :: 'x' :: rest => (radixToNat 16 rest).map (fun n => (n : ℚ))
  | '0' :: 'X' :: rest => (radixToNat 16 rest).map (fun n => (n : ℚ))
  | '0' :: 'b' :: rest => (radixToNat 2 rest).map (fun n => (n : ℚ))
  | '0' :: 'B' :: rest => (radixToNat 2 rest).map (fun n => (n : ℚ))
  | '0' :: 'o' :: rest => (radixToNat 8 rest).map (fun n => (n : ℚ))
  | '0' :: 'O' :: rest => (radixToNat 8 rest).map (fun n => (n : ℚ))
  | _ => decimalLit cs

/-- JavaScript `Number(x)` on a parsed JSON value; `none` is NaN. A
singleton array stringifies to its element's string (so `[true]` is
`"true"`, which is NaN); longer arrays stringify with commas and never
parse. -/
def Json.toNumber : Json → Option ℚ
  | .null => some 0
  | .bool b => some (if b then 1 else 0)
  | .num q => some q
  | .str s => strToNum s
  | .arr [] => some 0
  | .arr [x] =>
      match x with
      | .bool _ => none
      | _ => x.toNumber
  | .arr (_ :: _ :: _) => none
  | .obj _ => none

/-- JavaScript truthiness of a parsed JSON value. -/
def Json.truthy : Json → Bool
  | .null => false
  | .bool b => b
  | .num q => q ≠ 0
  | .str s => s ≠ ""
  | .arr _ => true
  | .obj _ => true

/-- Property access `o[k]` on a parsed JSON value; `none` is `undefined`. -/
def Json.get (j : Json) (k : String) : Option Json :=
  match j with
  | .obj fields => fields.lookup k
  | _ => none

/-- The nullish-coalescing operator `v ?? d` (`undefined`/`null` select `d`). -/
def nullishOr (v : Option Json) (d : Json) : Json :=
  match v with
  | none => d
  | some .null => d
  | some j => j

/-- Model of `Math.min(a, b)` on non-NaN numbers. -/
def jsMin (a b : ℚ) : ℚ := if a ≤ b then a else b

/-- Model of `Math.max(a, b)` on non-NaN numbers. -/
def jsMax (a b : ℚ) : ℚ := if a ≤ b then b else a

/-- Model of `clamp01(x)`: `Number(x)`, NaN becomes 0, then clamp to [0,1]
(identical helper in every variant). -/
def clamp01 (v : Option Json) : ℚ :=
  match v with
  | none => 0          -- Number(undefined) is NaN
  | some j =>
      match j.toNumber with
      | none => 0      -- NaN
      | some q => jsMax 0 (jsMin 1 q)

/-- Lookup `feature?.properties || \x7b\x7d` followed by property access with
`cfg.valueProp`. -/
def featureProp (feature : Option Json) (prop : String) : Option Json :=
  match feature with
  | none => none
  | some .null => none
  | some f =>
      match f.get "properties" with
      | some props => props.get prop
      | none => none

-- ---------------------------------------------------------------------------
-- Fetch model
-- ---------------------------------------------------------------------------

/-- Cache mode attached to a `fetch` request. -/
inductive CacheMode where
  | noStore   -- cache: "no-store"
  | default
deriving DecidableEq, Repr

/-- A request as issued by `fetch(url, { cache: "no-store" })`. -/
structure Request where
  url : String
  cache : CacheMode
deriving DecidableEq, Repr

/-- Outcome of a single network request: the promise rejects, the response has
a non-success HTTP status (`!res.ok`), the body fails to parse as JSON
(`res.json()` throws), or a parsed document is produced. -/
inductive FetchResponse where
  | reject : FetchResponse
  | httpError : FetchResponse
  | badJson : FetchResponse
  | success : Json → FetchResponse

/-- The network oracle: what each issued request yields. -/
def World : Type := Request → FetchResponse

/-- The single request `fetchJSON` issues for a URL: caching disabled. -/
def fetchRequest (url : String) : Request :=
  { url := url, cache := CacheMode.noStore }

/-- Exceptions the `try` block of `fetchJSON` can raise. -/
inductive FetchErr where
  | rejected      -- `await fetch(...)` rejected
  | parseFailed   -- `await res.json()` threw
deriving DecidableEq, Repr

/-- The body of `fetchJSON`'s `try` block: `.error` marks a thrown exception,
`.ok none` is the explicit `return null` on `!res.ok`. -/
def fetchBody (world : World) (url : String) : Except FetchErr (Option Json) :=
  match world (fetchRequest url) with
  | .reject => .error .rejected
  | .httpError => .ok none
  | .badJson => .error .parseFailed
  | .success d => .ok (some d)

/-- Model of `fetchJSON(url)` (identical helper in every variant): the `try` body with
every exception caught and collapsed to `null`. -/
def fetchJSON (world : World) (url : String) : Option Json :=
  match fetchBody world url with
  | .error _ => none
  | .ok r => r

/-- A derived style for a rendered GeoJSON feature; fields the source object
omits are `none`. -/
structure Style where
  weight : ℚ
  color : Option String
  opacity : ℚ
  fillColor : Option String
  fillOpacity : Option ℚ
deriving DecidableEq, Repr

/-- Circle-marker options for point (detection) features. -/
structure MarkerStyle where
  radius : ℚ
  color : String
  weight : ℚ
  fillColor : String
  fillOpacity : ℚ
  opacity : ℚ
deriving DecidableEq, Repr


-- ===========================================================================
-- app.js (also src/unnamed/part_000, identical pipeline): the "latest" view
-- ===========================================================================

namespace App

/-- The four overlay layer identifiers wired to checkboxes (`data-layer`). -/
inductive LayerKey where
  | presence | hotspots | corridors | detections
deriving DecidableEq, Repr

/-- The `data-layer` attribute string of each checkbox. -/
def LayerKey.name : LayerKey → String
  | .presence => "presence"
  | .hotspots => "hotspots"
  | .corridors => "corridors"
  | .detections => "detections"

/-- Geometry kind recorded in `LAYER_CONFIG.type`. -/
inductive GeomKind where
  | poly | line | point
deriving DecidableEq, Repr

/-- One `LAYER_CONFIG` entry. -/
structure LayerCfg where
  file : String
  kind : GeomKind
  valueProp : String

/-- The `LAYER_CONFIG` table of app.js. -/
def LAYER_CONFIG : LayerKey → LayerCfg
  | .presence => ⟨"presence.geojson", .poly, "p"⟩
  | .hotspots => ⟨"hotspots.geojson", .poly, "risk"⟩
  | .corridors => ⟨"corridors.geojson", .line, "w"⟩
  | .detections => ⟨"detections.geojson", .point, "conf"⟩

def DATA_ROOT : String := "data/latest"

/-- The deterministic location `loadLayer` derives for a layer. -/
def layerUrl (k : LayerKey) : String :=
  DATA_ROOT ++ "/" ++ (LAYER_CONFIG k).file

/-- Model of `presenceColor(p)`: five-step blue ramp with `>=` threshold comparisons. -/
def presenceColor (p : Option Json) : String :=
  let q := clamp01 p
  if q ≥ 4/5 then "#08306b"
  else if q ≥ 3/5 then "#08519c"
  else if q ≥ 2/5 then "#2171b5"
  else if q ≥ 1/5 then "#6baed6"
  else "#c6dbef"

/-- Model of `riskColor(r)`: five-step red ramp with `>=` threshold comparisons. -/
def riskColor (r : Option Json) : String :=
  let q := clamp01 r
  if q ≥ 4/5 then "#7f0000"
  else if q ≥ 3/5 then "#b30000"
  else if q ≥ 2/5 then "#d7301f"
  else if q ≥ 1/5 then "#fc8d59"
  else "#fee0d2"

/-- Model of `detColor(c)`: three-step confidence ramp. -/
def detColor (c : Option Json) : String :=
  let q := clamp01 c
  if q ≥ 4/5 then "#00d18f"
  else if q ≥ 3/5 then "#f1c40f"
  else "#ff6b6b"

/-- Model of `styleFor(key, feature)` of app.js (non-point layers). -/
def styleFor (key : LayerKey) (feature : Option Json) : Style :=
  let cfg := LAYER_CONFIG key
  let v := featureProp feature cfg.valueProp
  if cfg.kind = .line then
    let w := clamp01 (some (nullishOr v (.num (1/2))))
    { weight := 2 + 6 * w, opacity := 9/10, color := some "#c7d2fe",
      fillColor := none, fillOpacity := none }
  else if key = .hotspots then
    let r := nullishOr v (.num (3/10))
    { weight := 1, color := some "#fff", opacity := 1/4,
      fillColor := some (riskColor (some r)), fillOpacity := some (9/20) }
  else
    let p := nullishOr v (.num (3/10))
    { weight := 1, color := some "#fff", opacity := 9/50,
      fillColor := some (presenceColor (some p)), fillOpacity := some (7/20) }

/-- The `feature?.properties?.conf` access of the point branch of `loadLayer`. -/
def pointConf (feature : Option Json) : Option Json :=
  featureProp feature "conf"

/-- The circle-marker options built by `pointToLayer` in `loadLayer`. -/
def pointMarkerFor (feature : Option Json) : MarkerStyle :=
  let c := clamp01 (some (nullishOr (pointConf feature) (.num (1/2))))
  { radius := 3 + 6 * c, color := "#0b1220", weight := 1,
    fillColor := detColor (some (nullishOr (pointConf feature) (.num (1/2)))),
    fillOpacity := 17/20, opacity := 11/20 }

/-- Result of `loadLayer(key)`: `{ ok:false, url }` or `{ ok:true, layer, url }`
(the rendered layer is represented by the GeoJSON document it was built from). -/
inductive LoadResult where
  | failure (url : String)
  | success (geo : Json) (url : String)

/-- Model of `loadLayer(key)` of app.js: fetch the derived URL, fail when `fetchJSON`
returned `null` or a falsy document, otherwise build the rendered layer. -/
def loadLayer (world : World) (k : LayerKey) : LoadResult :=
  let url := layerUrl k
  match fetchJSON world url with
  | none => .failure url
  | some geo => if geo.truthy then .success geo url else .failure url

/-- Predicate: `loadLayer` succeeds for this key in this world. -/
def loadOk (world : World) (k : LayerKey) : Prop :=
  ∃ geo url, loadLayer world k = .success geo url

/-- Map-mutating calls made during a refresh, in order. -/
inductive MapEvent where
  | remove (k : LayerKey)
  | add (k : LayerKey)
deriving DecidableEq, Repr

/-- Assignment `o[k] = v` on a JavaScript object viewed as an association
list: overwrite in place if the key exists, else append. -/
def objInsert (m : List (LayerKey × Json)) (k : LayerKey) (v : Json) :
    List (LayerKey × Json) :=
  if k ∈ m.map Prod.fst then
    m.map (fun p => if p.1 = k then (k, v) else p)
  else m ++ [(k, v)]

/-- The per-missing-layer status fragment pushed by `refreshDataLayers`. -/
def missingEntry (k : LayerKey) (url : String) : String :=
  k.name ++ " (missing: " ++ url ++ ")"

/-- Accumulator of the loading loop of `refreshDataLayers`. -/
structure RefreshAcc where
  layers : List (LayerKey × Json)
  loaded : Nat
  missing : List String
  adds : List LayerKey

/-- The loop of `refreshDataLayers` over the checkbox list (`layerChecks` in
document order, each with its `checked` state). -/
def refreshLoop (world : World) : List (LayerKey × Bool) → RefreshAcc → RefreshAcc
  | [], acc => acc
  | (k, checked) :: rest, acc =>
      if checked then
        match loadLayer world k with
        | .failure url =>
            refreshLoop world rest
              ⟨acc.layers, acc.loaded, acc.missing ++ [missingEntry k url], acc.adds⟩
        | .success geo _ =>
            refreshLoop world rest
              ⟨objInsert acc.layers k geo, acc.loaded + 1, acc.missing,
               acc.adds ++ [k]⟩
      else refreshLoop world rest acc

/-- The status text chosen at the end of `refreshDataLayers`. -/
def statusMsg (loaded : Nat) (missing : List String) : String :=
  if loaded = 0 then
    if missing.isEmpty then "No GeoJSON layers loaded (none selected)."
    else "No GeoJSON layers loaded. Missing:\n- " ++ String.intercalate "\n- " missing
  else
    if missing.isEmpty then
      "Loaded " ++ toString loaded ++ " layer(s) from data/latest."
    else
      "Loaded " ++ toString loaded ++ " layer(s). Missing:\n- " ++
        String.intercalate "\n- " missing

/-- Everything a call to `refreshDataLayers` leaves behind. -/
structure RefreshResult where
  layers : List (LayerKey × Json)   -- final `layersOnMap`
  loaded : Nat
  missing : List String
  events : List MapEvent            -- map mutations, in call order
  status : String

/-- Model of `refreshDataLayers()` of app.js: clear `layersOnMap` (removing each tracked
layer from the map) before the loading loop runs from an empty table, then
report. `prev` is the `layersOnMap` table left by the previous cycle. -/
def refreshDataLayers (world : World) (checks : List (LayerKey × Bool))
    (prev : List (LayerKey × Json)) : RefreshResult :=
  let acc := refreshLoop world checks ⟨[], 0, [], []⟩
  { layers := acc.layers
    loaded := acc.loaded
    missing := acc.missing
    events := prev.map (fun p => MapEvent.remove p.1) ++ acc.adds.map MapEvent.add
    status := statusMsg acc.loaded acc.missing }

end App

-- ===========================================================================
-- app.js: NDVI histogram chart (renderNdviChart / loadNdviHistogram)
-- ===========================================================================

namespace App

/-- Left-pad a digit string with zeros to width `k`. -/
def padZeros (k : Nat) (s : String) : String :=
  String.mk (List.replicate (k - s.length) '0') ++ s

/-- Model of `Number.prototype.toFixed(k)` for the in-range values the pipeline
formats; ties round away from zero (the binary-float tie noise of the real
`toFixed` is not representable over ℚ and never affects the claims). -/
def toFixed (k : Nat) (q : ℚ) : String :=
  let n : ℤ := ⌊|q| * (10 : ℚ) ^ k + 1/2⌋
  let sign := if q < 0 ∧ n ≠ 0 then "-" else ""
  if k = 0 then sign ++ toString n.toNat
  else sign ++ toString (n.toNat / 10 ^ k) ++ "." ++ padZeros k (toString (n.toNat % 10 ^ k))

/-- Template-literal display of a JSON value (only `date`, a string, is ever
interpolated by the chart code; other shapes are approximated). -/
def jsDisplay : Json → String
  | .str s => s
  | .num q => toString q
  | .bool b => toString b
  | .null => "null"
  | .arr _ => ""
  | .obj _ => "[object Object]"

/-- What the bar chart is built from: bin-midpoint labels and the raw counts
array (`data: counts`). -/
structure ChartData where
  labels : List String
  counts : List Json
deriving Repr

/-- The format-error text set when bins/counts fail shape validation. -/
def histFormatErrorMsg : String :=
  "ndvi_hist.json exists but format is wrong (bins must be edges, counts must be bins-1)."

/-- The `Array.isArray` guard: the payload when the value is an array. -/
def asArray : Option Json → Option (List Json)
  | some (.arr xs) => some xs
  | _ => none

/-- The stats fragments pushed for `date` / `mean` / `p10` / `p90`
(`typeof x === "number"` admits only JSON numbers). -/
def statsList (hist : Json) : List String :=
  (match hist.get "date" with
   | some d => if d.truthy then ["Date: " ++ jsDisplay d] else []
   | none => []) ++
  (match hist.get "mean" with
   | some (.num q) => ["Mean NDVI: " ++ toFixed 3 q]
   | _ => []) ++
  (match hist.get "p10" with
   | some (.num q) => ["P10: " ++ toFixed 3 q]
   | _ => []) ++
  (match hist.get "p90" with
   | some (.num q) => ["P90: " ++ toFixed 3 q]
   | _ => [])

/-- Model of `renderNdviChart(hist)`: returns the chart state after the call together
with the `ndviStats` text it sets. On shape failure it sets the format-error
text and returns before touching the existing chart. -/
def renderNdviChart (chart : Option ChartData) (hist : Json) :
    Option ChartData × String :=
  match asArray (hist.get "bins"), asArray (hist.get "counts") with
  | some bins, some counts =>
      if bins.length = counts.length + 1 then
        let labels := (List.range counts.length).map (fun i =>
          match (bins.getD i .null).toNumber, (bins.getD (i+1) .null).toNumber with
          | some a, some b => toFixed 2 ((a + b) / 2)
          | _, _ => "NaN")
        let stats := statsList hist
        let msg := if stats.isEmpty then "Histogram loaded."
                   else String.intercalate " • " stats
        -- old chart destroyed, new chart created
        (some ⟨labels, counts⟩, msg)
      else (chart, histFormatErrorMsg)
  | _, _ => (chart, histFormatErrorMsg)

def ndviHistUrl : String := DATA_ROOT ++ "/ndvi_hist.json"

/-- The `ndviStats` text for a missing/unfetchable histogram document. -/
def ndviNotFoundMsg : String :=
  "No NDVI histogram found at " ++ ndviHistUrl ++ " (this is expected until you generate it)."

/-- Model of `loadNdviHistogram()`: a falsy `fetchJSON` result destroys the current
chart and resets it to `null`; otherwise the document goes to
`renderNdviChart`. -/
def loadNdviHistogram (world : World) (chart : Option ChartData) :
    Option ChartData × String :=
  match fetchJSON world ndviHistUrl with
  | none => (none, ndviNotFoundMsg)
  | some hist =>
      if hist.truthy then renderNdviChart chart hist
      else (none, ndviNotFoundMsg)

end App

-- ===========================================================================
-- src/unnamed/part_002: detections-only variant
-- ===========================================================================

namespace Detect

def DATA_ROOT : String := "data/latest"

def detectionsUrl : String := DATA_ROOT ++ "/detections.geojson"

/-- The combined status text for both a missing document and a document
without a `features` array. -/
def notFoundOrInvalidMsg : String := "No detections.geojson found (or invalid)."

/-- The `Array.isArray(geo.features)` guard: the features when present. -/
def featuresOf (geo : Json) : Option (List Json) :=
  match geo.get "features" with
  | some (.arr xs) => some xs
  | _ => none

/-- The circle-marker options built by `pointToLayer` in `loadDetections`
(default confidence 0.6 in this variant). -/
def detMarkerFor (feature : Option Json) : MarkerStyle :=
  let conf := clamp01 (some (nullishOr (featureProp feature "conf") (.num (3/5))))
  { radius := 3 + 6 * conf, color := "#0b1220", weight := 1,
    fillColor := "#22c55e", fillOpacity := 17/20, opacity := 4/5 }

/-- Model of `loadDetections()`: `clearDetections()` runs first, so the tracked layer
is `none` unless the final success branch is reached; a missing document and a
document without a `features` array share one status message. Returns the
final tracked detections layer (by its document) and the status text. -/
def loadDetections (world : World) (toggleChecked : Bool) :
    Option Json × String :=
  if !toggleChecked then (none, "Detections off.")
  else
    match fetchJSON world detectionsUrl with
    | none => (none, notFoundOrInvalidMsg)
    | some geo =>
        if !geo.truthy then (none, notFoundOrInvalidMsg)
        else
          match featuresOf geo with
          | none => (none, notFoundOrInvalidMsg)
          | some feats =>
              (some geo, "Detections loaded: " ++ toString feats.length ++ " feature(s).")

end Detect

-- ===========================================================================
-- src/unnamed/part_001 (second script): temporal-navigation variant
-- ===========================================================================

namespace Temporal

/-- The overlay layer identifiers of this variant. -/
inductive LayerKey where
  | grazing | water | presence | corridors | hotspots
deriving DecidableEq, Repr

/-- The `LAYER_CONFIG` table of the temporal variant (color ramps and `clamp01` are
byte-identical to the app.js copies and are shared). -/
def LAYER_CONFIG : LayerKey → App.LayerCfg
  | .grazing => ⟨"grazing.geojson", .poly, "g"⟩
  | .water => ⟨"water.geojson", .poly, "w"⟩
  | .presence => ⟨"presence.geojson", .poly, "p"⟩
  | .corridors => ⟨"corridors.geojson", .line, "w"⟩
  | .hotspots => ⟨"hotspots.geojson", .poly, "risk"⟩

/-- Model of `leadFade(leadDays)`: decreasing-confidence fade, floored at 0.35. -/
def leadFade (leadDays : ℚ) : ℚ :=
  jsMax (7/20) (jsMin 1 (1 - leadDays / 46))

/-- Model of `geojsonStyleFor(key, feature, leadDays)` of the temporal variant: the
non-temporal styles with every opacity multiplied by
`leadFade(Math.max(0, leadDays))`. -/
def geojsonStyleFor (key : LayerKey) (feature : Option Json) (leadDays : ℚ) :
    Style :=
  let cfg := LAYER_CONFIG key
  let v := featureProp feature cfg.valueProp
  let fade := leadFade (jsMax 0 leadDays)
  if cfg.kind = .line then
    let w := clamp01 (some (nullishOr v (.num (1/2))))
    { weight := 2 + 6 * w, opacity := 9/10 * fade, color := none,
      fillColor := none, fillOpacity := none }
  else if key = .hotspots then
    let r := nullishOr v (.num (3/10))
    { weight := 1, color := some "#ffffff", opacity := 1/4 * fade,
      fillColor := some (App.riskColor (some r)), fillOpacity := some (9/20 * fade) }
  else
    let p := nullishOr v (.num (3/10))
    { weight := 1, color := some "#ffffff", opacity := 9/50 * fade,
      fillColor := some (App.presenceColor (some p)), fillOpacity := some (7/20 * fade) }

-- ---------------------------------------------------------------------------
-- Date helpers ("avoid timezone bugs"): calendar days at UTC midnight
-- ---------------------------------------------------------------------------

/-- Days since 1970-01-01 of a proleptic-Gregorian civil date (years ≥ 1 CE,
covering every date the index contract can carry); this is exactly
`Date.UTC(y, m-1, d) / 86400000` for the ISO dates `parseISODate` accepts. -/
def civilDays (y m d : Nat) : Int :=
  let yAdj := if m ≤ 2 then y - 1 else y
  let era := yAdj / 400
  let yoe := yAdj % 400
  let mp := if 2 < m then m - 3 else m + 9
  let doy := (153 * mp + 2) / 5 + (d - 1)
  let doe := yoe * 365 + yoe / 4 - yoe / 100 + doy
  (era * 146097 + doe : Int) - 719468

/-- Model of `parseISODate(d)`: `new Date(d + "T00:00:00Z")` succeeds on
`YYYY-MM-DD`; the numeric fields of the parse. -/
def parseISODate (s : String) : Option (Nat × Nat × Nat) :=
  match splitAtChar '-' s.data [] with
  | [ys, ms, ds] =>
      match digitsToNat ys, digitsToNat ms, digitsToNat ds with
      | some y, some m, some d => some (y, m, d)
      | _, _, _ => none
  | _ => none

/-- Model of `diffDays(aISO, bISO)`: difference of the two UTC-midnight timestamps in
days (`Math.round` is the identity here because both timestamps are exact
multiples of 86400000 ms); `none` models the NaN produced by an unparseable
date. -/
def diffDays (aISO bISO : String) : Option Int :=
  match parseISODate aISO, parseISODate bISO with
  | some (ya, ma, da), some (yb, mb, db) =>
      some (civilDays ya ma da - civilDays yb mb db)
  | _, _ => none

-- ---------------------------------------------------------------------------
-- Time-index resolver state
-- ---------------------------------------------------------------------------

/-- Lexicographic comparison of character lists. -/
def charListLt : List Char → List Char → Bool
  | [], [] => false
  | [], _ :: _ => true
  | _ :: _, [] => false
  | a :: as, b :: bs =>
      if a < b then true else if b < a then false else charListLt as bs

/-- JavaScript default-comparator string order: lexicographic on UTF-16 code
units (code points agree for the ISO-date strings involved). -/
def strLtb (a b : String) : Bool :=
  charListLt a.data b.data

/-- Insert into an ascending list (helper of `sortStrings`). -/
def insertSorted (s : String) : List String → List String
  | [] => [s]
  | x :: xs => if strLtb s x then s :: x :: xs else x :: insertSorted s xs

/-- Model of `indexData.dates.slice().sort()`: ascending sort under the default
comparator. -/
def sortStrings (l : List String) : List String :=
  l.foldl (fun acc s => insertSorted s acc) []

/-- The module-level navigation state: `availableDates`, `baseDate` (null
until resolved) and the `dateSelect` control's current value. -/
structure NavState where
  availableDates : List String
  baseDate : Option String
  dateSelectValue : String
deriving DecidableEq, Repr

/-- Model of `availableDates.indexOf(value)`: the index, or -1 when absent. -/
def idxOfInt (l : List String) (s : String) : Int :=
  match l.findIdx? (· = s) with
  | some i => i
  | none => -1

/-- The lead value computed as `baseDate ? diffDays(current, baseDate) : 0`
(`none` models NaN). -/
def leadOf (st : NavState) : Option Int :=
  match st.baseDate with
  | some b => if b ≠ "" then diffDays st.dateSelectValue b else some 0
  | none => some 0

/-- The control state set by `setDateControls()`. -/
structure DateControls where
  prevDisabled : Bool
  nextDisabled : Bool
  leadTag : String
deriving DecidableEq, Repr

/-- Model of `setDateControls()`: disable "prev" at index ≤ 0, disable "next" when the
value is absent or at the last index, and render the lead tag. -/
def setDateControls (st : NavState) : DateControls :=
  let idx := idxOfInt st.availableDates st.dateSelectValue
  { prevDisabled := decide (idx ≤ 0)
    nextDisabled := decide (idx < 0) || decide ((st.availableDates.length : Int) - 1 ≤ idx)
    leadTag :=
      match leadOf st with
      | some l => if 0 ≤ l then "Day +" ++ toString l else "Day " ++ toString l
      | none => "Day NaN" }

/-- A user selection in the `dateSelect` dropdown (the control offers exactly
`availableDates`, so other strings leave it unchanged). -/
def selectDate (st : NavState) (d : String) : NavState :=
  if d ∈ st.availableDates then { st with dateSelectValue := d } else st

/-- The "next" button handler: step to the following date unless the value is
absent or already at the last index. -/
def nextClick (st : NavState) : NavState :=
  let idx := idxOfInt st.availableDates st.dateSelectValue
  if 0 ≤ idx ∧ idx < (st.availableDates.length : Int) - 1 then
    { st with dateSelectValue := st.availableDates.getD (idx.toNat + 1) "" }
  else st

/-- The "prev" button handler: step back unless at index ≤ 0. -/
def prevClick (st : NavState) : NavState :=
  let idx := idxOfInt st.availableDates st.dateSelectValue
  if 0 < idx then
    { st with dateSelectValue := st.availableDates.getD (idx.toNat - 1) "" }
  else st

/-- Array of strings (the `index.json` data contract fixes `dates` to ISO
date strings). -/
def asStringList (j : Json) : Option (List String) :=
  match j with
  | .arr xs =>
      xs.foldr (fun x acc =>
        match x, acc with
        | .str s, some l => some (s :: l)
        | _, _ => none) (some [])
  | _ => none

/-- Model of `initDates()` after `fetchJSON("data/index.json")`: `none` models the
early return with the "Missing data/index.json or no dates listed." status
(`!indexData?.dates?.length`); otherwise sort the dates ascending, resolve
the base date (`indexData.latest ||` chronologically-last fallback), and point
the dropdown at the base date. -/
def initDates (indexDoc : Option Json) : Option NavState :=
  match indexDoc with
  | none => none
  | some doc =>
      match doc.get "dates" with
      | none => none
      | some datesJson =>
          match asStringList datesJson with
          | none => none
          | some dates =>
              if dates.isEmpty then none
              else
                let avail := sortStrings dates
                let base :=
                  match doc.get "latest" with
                  | some (.str s) => if s ≠ "" then s else avail.getLastD ""
                  | _ => avail.getLastD ""
                some { availableDates := avail, baseDate := some base,
                       dateSelectValue := if base ∈ avail then base else "" }

end Temporal

-- ===========================================================================
-- Spec-side definitions and concrete scenarios used by the claims
-- ===========================================================================

/-- Spec-side clamp, written with the lattice `min`/`max` exactly as the spec
phrases `clamp(x, lo, hi)`; compared against the code's `jsMax`/`jsMin`. -/
def clampSpec (x lo hi : ℚ) : ℚ :=
  max lo (min hi x)

/-- Darkness index of the risk ramp: position of a color in the pale-to-dark
ramp listing (0 = palest, 4 = darkest). -/
def rampIndex (c : String) : Nat :=
  if c = "#fee0d2" then 0
  else if c = "#fc8d59" then 1
  else if c = "#d7301f" then 2
  else if c = "#b30000" then 3
  else if c = "#7f0000" then 4
  else 0

/-- The five fixed colors of the risk ramp, pale to dark. -/
def riskRamp : List String :=
  ["#fee0d2", "#fc8d59", "#d7301f", "#b30000", "#7f0000"]

/-- The shape `renderNdviChart` validates: `bins` and `counts` are arrays
with `bins.length === counts.length + 1`. -/
def histShapeOk (hist : Json) : Prop :=
  ∃ bins counts, App.asArray (hist.get "bins") = some bins ∧
    App.asArray (hist.get "counts") = some counts ∧
    bins.length = counts.length + 1

/-- Is a map event an `add`? -/
def isAddEvent : App.MapEvent → Bool
  | .add _ => true
  | .remove _ => false

/-- Scenario world for the missing-hotspots claim: only
`data/latest/presence.geojson` exists at the active time key. -/
def presenceOnlyWorld : World := fun req =>
  if req.url = "data/latest/presence.geojson" then .success (Json.obj [])
  else .httpError

/-- Scenario checkbox state: `presence` and `hotspots` enabled. -/
def presenceHotspotsChecks : List (App.LayerKey × Bool) :=
  [(.presence, true), (.hotspots, true), (.corridors, false), (.detections, false)]

/-- Scenario world: `detections.geojson` parses but has no `features` array. -/
def badShapeDetectionsWorld : World := fun _ =>
  .success (Json.obj [("type", Json.str "FeatureCollection")])

/-- Scenario world: every request gets a non-success HTTP status. -/
def allMissingWorld : World := fun _ => .httpError

/-- Scenario index document of the temporal-navigation claim. -/
def scenarioIndexDoc : Json :=
  Json.obj [("dates", Json.arr [Json.str "2026-01-01", Json.str "2026-01-08"]),
            ("latest", Json.str "2026-01-08")]

/-- Same index document with the `dates` array in descending order. -/
def scenarioIndexDocRev : Json :=
  Json.obj [("dates", Json.arr [Json.str "2026-01-08", Json.str "2026-01-01"]),
            ("latest", Json.str "2026-01-08")]

/-- The navigation state `initDates` resolves for `scenarioIndexDoc`. -/
def scenarioNavState : Temporal.NavState :=
  { availableDates := ["2026-01-01", "2026-01-08"],
    baseDate := some "2026-01-08",
    dateSelectValue := "2026-01-08" }

/-- An intensity-bearing feature whose `properties` object lacks every
intensity property. -/
def featureNoProps : Json :=
  Json.obj [("properties", Json.obj [])]

/-- A feature carrying an explicit JSON `null` under every intensity
property name. -/
def featureNullProps : Json :=
  Json.obj [("properties", Json.obj [("p", Json.null), ("w", Json.null),
            ("risk", Json.null), ("conf", Json.null)])]

/-- A feature carrying a plain object — a value `Number()` maps to NaN —
under every intensity property name. -/
def featureObjProps : Json :=
  Json.obj [("properties", Json.obj [("p", Json.obj []), ("w", Json.obj []),
            ("risk", Json.obj []), ("conf", Json.obj [])])]

/-- A histogram document whose `bins`/`counts` lengths mismatch
(2 edges against 2 counts). -/
def badHistDoc : Json :=
  Json.obj [("bins", Json.arr [Json.num 0, Json.num 1]),
            ("counts", Json.arr [Json.num 5, Json.num 6])]

-- ===========================================================================
-- Helper lemmas (shared)
-- ===========================================================================

theorem keys_map_overwrite (m : List (App.LayerKey × Json)) (k : App.LayerKey)
    (v : Json) :
    ((m.map (fun p => if p.1 = k then (k, v) else p)).map Prod.fst)
      = m.map Prod.fst := by
  induction m with
  | nil => rfl
  | cons p rest ih =>
      simp only [List.map_cons, ih, List.cons.injEq, and_true]
      split <;> simp_all

theorem keys_objInsert (m : List (App.LayerKey × Json)) (k : App.LayerKey)
    (v : Json) :
    (App.objInsert m k v).map Prod.fst =
      if k ∈ m.map Prod.fst then m.map Prod.fst else m.map Prod.fst ++ [k] := by
  unfold App.objInsert
  split
  · exact keys_map_overwrite m k v
  · simp

theorem mem_keys_objInsert (m : List (App.LayerKey × Json)) (k a : App.LayerKey)
    (v : Json) :
    a ∈ (App.objInsert m k v).map Prod.fst ↔ a ∈ m.map Prod.fst ∨ a = k := by
  rw [keys_objInsert]
  split
  · next hk =>
      constructor
      · exact fun h => Or.inl h
      · rintro (h | rfl)
        · exact h
        · exact hk
  · simp

theorem nodup_keys_objInsert (m : List (App.LayerKey × Json)) (k : App.LayerKey)
    (v : Json) (h : (m.map Prod.fst).Nodup) :
    ((App.objInsert m k v).map Prod.fst).Nodup := by
  rw [keys_objInsert]
  split
  · exact h
  · next hk =>
      rw [List.nodup_append]
      exact ⟨h, List.nodup_singleton k, by simpa using hk⟩

theorem loadLayer_failure_not_ok (world : World) (k : App.LayerKey)
    (url : String) (h : App.loadLayer world k = .failure url) :
    ¬ App.loadOk world k := by
  rintro ⟨geo, u, hg⟩
  rw [h] at hg
  cases hg

theorem refreshLoop_keys (world : World) (checks : List (App.LayerKey × Bool))
    (acc : App.RefreshAcc) (hnd : (acc.layers.map Prod.fst).Nodup) :
    (((App.refreshLoop world checks acc).layers.map Prod.fst).Nodup ∧
      ∀ k, k ∈ (App.refreshLoop world checks acc).layers.map Prod.fst ↔
        (k ∈ acc.layers.map Prod.fst ∨ ((k, true) ∈ checks ∧ App.loadOk world k))) := by
  induction checks generalizing acc with
  | nil =>
      refine ⟨hnd, fun k => ?_⟩
      simp [App.refreshLoop]
  | cons c rest ih =>
      obtain ⟨k', chk⟩ := c
      by_cases hchk : chk
      · subst hchk
        rcases hload : App.loadLayer world k' with url | ⟨geo, url⟩
        · -- failed load: layers unchanged, key recorded as missing
          have step : App.refreshLoop world ((k', true) :: rest) acc =
              App.refreshLoop world rest
                ⟨acc.layers, acc.loaded,
                 acc.missing ++ [App.missingEntry k' url], acc.adds⟩ := by
            simp [App.refreshLoop, hload]
          rw [step]
          obtain ⟨h1, h2⟩ :=
            ih ⟨acc.layers, acc.loaded, acc.missing ++ [App.missingEntry k' url],
                acc.adds⟩ hnd
          refine ⟨h1, fun k => (h2 k).trans ?_⟩
          constructor
          · rintro (h | h)
            · exact Or.inl h
            · exact Or.inr ⟨List.mem_cons_of_mem _ h.1, h.2⟩
          · rintro (h | ⟨hmem, hok⟩)
            · exact Or.inl h
            · rcases List.mem_cons.mp hmem with heq | hmem'
              · cases heq
                exact absurd hok (loadLayer_failure_not_ok world k' url hload)
              · exact Or.inr ⟨hmem', hok⟩
        · -- successful load: key inserted
          have step : App.refreshLoop world ((k', true) :: rest) acc =
              App.refreshLoop world rest
                ⟨App.objInsert acc.layers k' geo, acc.loaded + 1,
                 acc.missing, acc.adds ++ [k']⟩ := by
            simp [App.refreshLoop, hload]
          rw [step]
          obtain ⟨h1, h2⟩ :=
            ih ⟨App.objInsert acc.layers k' geo, acc.loaded + 1, acc.missing,
                acc.adds ++ [k']⟩ (nodup_keys_objInsert _ _ _ hnd)
          refine ⟨h1, fun k => (h2 k).trans ?_⟩
          rw [mem_keys_objInsert]
          constructor
          · rintro ((h | rfl) | h)
            · exact Or.inl h
            · exact Or.inr ⟨List.mem_cons_self _ _, geo, url, hload⟩
            · exact Or.inr ⟨List.mem_cons_of_mem _ h.1, h.2⟩
          · rintro (h | ⟨hmem, hok⟩)
            · exact Or.inl (Or.inl h)
            · rcases List.mem_cons.mp hmem with heq | hmem'
              · cases heq
                exact Or.inl (Or.inr rfl)
              · exact Or.inr ⟨hmem', hok⟩
      · have hchk' : chk = false := by simpa using hchk
        subst hchk'
        have step : App.refreshLoop world ((k', false) :: rest) acc =
            App.refreshLoop world rest acc := by
          simp [App.refreshLoop]
        rw [step]
        obtain ⟨h1, h2⟩ := ih _ hnd
        refine ⟨h1, fun k => (h2 k).trans ?_⟩
        constructor
        · rintro (h | h)
          · exact Or.inl h
          · exact Or.inr ⟨List.mem_cons_of_mem _ h.1, h.2⟩
        · rintro (h | ⟨hmem, hok⟩)
          · exact Or.inl h
          · rcases List.mem_cons.mp hmem with heq | hmem'
            · cases heq
            · exact Or.inr ⟨hmem', hok⟩

theorem refreshDataLayers_keys (world : World)
    (checks : List (App.LayerKey × Bool)) (prev : List (App.LayerKey × Json)) :
    (((App.refreshDataLayers world checks prev).layers.map Prod.fst).Nodup ∧
      ∀ k, k ∈ (App.refreshDataLayers world checks prev).layers.map Prod.fst ↔
        ((k, true) ∈ checks ∧ App.loadOk world k)) := by
  obtain ⟨h1, h2⟩ := refreshLoop_keys world checks ⟨[], 0, [], []⟩ (by simp)
  exact ⟨h1, fun k => (h2 k).trans (by simp)⟩

-- ===========================================================================
-- Claim theorems
-- ===========================================================================

/-- C1: in every refresh cycle, every previously tracked overlay is removed
(and the tracking table restarted empty) before any new layer is added — the
final table does not depend on the prior one, and every `remove` event
precedes every `add` event — and after the refresh the tracked-layer table
holds exactly one entry per checked, successfully fetched layer identifier
and nothing else. -/
theorem refresh_clearing_invariant (world : World)
    (checks : List (App.LayerKey × Bool)) (prev : List (App.LayerKey × Json)) :
    (∀ prev', (App.refreshDataLayers world checks prev').layers
        = (App.refreshDataLayers world checks prev).layers) ∧
    (App.refreshDataLayers world checks prev).events
        = prev.map (fun p => App.MapEvent.remove p.1)
            ++ ((App.refreshDataLayers world checks prev).events.filter isAddEvent) ∧
    ((App.refreshDataLayers world checks prev).layers.map Prod.fst).Nodup ∧
    (∀ k, k ∈ (App.refreshDataLayers world checks prev).layers.map Prod.fst ↔
        ((k, true) ∈ checks ∧ App.loadOk world k)) := by
  obtain ⟨h1, h2⟩ := refreshDataLayers_keys world checks prev
  refine ⟨fun prev' => rfl, ?_, h1, h2⟩
  simp only [App.refreshDataLayers, List.filter_append, List.append_cancel_left_eq]
  rw [List.filter_map, List.filter_map]
  simp [isAddEvent, Function.comp_def]

/-- C9: the refresh cycle is idempotent — a second run with the same
checkbox state against the same backing data leaves the same tracked-layer
table (same identifiers, each exactly once) and the same report. -/
theorem refresh_idempotent (world : World) (checks : List (App.LayerKey × Bool))
    (prev : List (App.LayerKey × Json)) :
    (App.refreshDataLayers world checks
        (App.refreshDataLayers world checks prev).layers).layers
      = (App.refreshDataLayers world checks prev).layers ∧
    (App.refreshDataLayers world checks
        (App.refreshDataLayers world checks prev).layers).loaded
      = (App.refreshDataLayers world checks prev).loaded ∧
    (App.refreshDataLayers world checks
        (App.refreshDataLayers world checks prev).layers).missing
      = (App.refreshDataLayers world checks prev).missing ∧
    (App.refreshDataLayers world checks
        (App.refreshDataLayers world checks prev).layers).status
      = (App.refreshDataLayers world checks prev).status ∧
    ((App.refreshDataLayers world checks prev).layers.map Prod.fst).Nodup := by
  exact ⟨rfl, rfl, rfl, rfl, (refreshDataLayers_keys world checks prev).1⟩

/-- C7: with `hotspots` and `presence` enabled and only
`data/latest/presence.geojson` available, the refresh completes — the
hotspots failure does not abort the presence load — reporting one loaded
layer and one missing entry naming `hotspots` with its attempted path. -/
theorem missing_layer_status_scenario :
    (App.refreshDataLayers presenceOnlyWorld presenceHotspotsChecks []).loaded = 1 ∧
    (App.refreshDataLayers presenceOnlyWorld presenceHotspotsChecks []).layers
        = [(App.LayerKey.presence, Json.obj [])] ∧
    (App.refreshDataLayers presenceOnlyWorld presenceHotspotsChecks []).missing
        = ["hotspots (missing: data/latest/hotspots.geojson)"] ∧
    (App.refreshDataLayers presenceOnlyWorld presenceHotspotsChecks []).status
        = "Loaded 1 layer(s). Missing:\n- hotspots (missing: data/latest/hotspots.geojson)" := by
  exact ⟨rfl, rfl, rfl, rfl⟩

/-- Every `loadLayer` result carries the derived location for its key. -/
theorem loadLayer_cases (world : World) (k : App.LayerKey) :
    App.loadLayer world k = .failure (App.layerUrl k) ∨
    ∃ geo, App.loadLayer world k = .success geo (App.layerUrl k) := by
  have hdef : App.loadLayer world k =
      match fetchJSON world (App.layerUrl k) with
      | none => App.LoadResult.failure (App.layerUrl k)
      | some geo =>
          if geo.truthy then App.LoadResult.success geo (App.layerUrl k)
          else App.LoadResult.failure (App.layerUrl k) := rfl
  rcases hf : fetchJSON world (App.layerUrl k) with _ | geo
  · rw [hdef, hf]
    exact Or.inl rfl
  · rw [hdef, hf]
    by_cases h : geo.truthy
    · exact Or.inr ⟨geo, by simp [h]⟩
    · exact Or.inl (by simp [h])

/-- C2: for every URL, the layer fetch never escapes with an exception —
every exception of the `try` body is caught and collapsed to `null` — the
result is `null` exactly when the request did not produce a parsed document
(rejection, non-success HTTP status, malformed JSON), the request is issued
with caching disabled (`cache: "no-store"`), and a failing `loadLayer`
returns the failure variant carrying exactly the attempted location. -/
theorem fetchJSON_total_and_uncached (world : World) (url : String)
    (k : App.LayerKey) :
    (fetchRequest url).cache = CacheMode.noStore ∧
    (∀ e, fetchBody world url = .error e → fetchJSON world url = none) ∧
    (fetchJSON world url = none ↔ ∀ d, world (fetchRequest url) ≠ .success d) ∧
    (∀ u, App.loadLayer world k = .failure u → u = App.layerUrl k) ∧
    (∀ geo u, App.loadLayer world k = .success geo u → u = App.layerUrl k) := by
  refine ⟨rfl, ?_, ?_, ?_, ?_⟩
  · intro e he
    simp [fetchJSON, he]
  · unfold fetchJSON fetchBody
    rcases world (fetchRequest url) with _ | _ | _ | d <;> simp
  · intro u hu
    rcases loadLayer_cases world k with h | ⟨geo, h⟩
    · rw [h] at hu
      cases hu
      rfl
    · rw [h] at hu
      cases hu
  · intro geo u hu
    rcases loadLayer_cases world k with h | ⟨g, h⟩
    · rw [h] at hu
      cases hu
    · rw [h] at hu
      cases hu
      rfl

/-- Witness for C2 at a concrete world and URL: a rejecting request yields
`null` from `fetchJSON`, and the issued request disables caching. -/
theorem fetchJSON_total_and_uncached_witness :
    fetchJSON (fun _ => FetchResponse.reject) "data/latest/presence.geojson" = none ∧
    (fetchRequest "data/latest/presence.geojson").cache = CacheMode.noStore := by
  obtain ⟨h1, h2, -, -, -⟩ :=
    fetchJSON_total_and_uncached (fun _ => FetchResponse.reject)
      "data/latest/presence.geojson" App.LayerKey.presence
  exact ⟨h2 FetchErr.rejected rfl, h1⟩

/-- C5: for the index document with dates 2026-01-01 and 2026-01-08 and
latest 2026-01-08, the resolver sorts the available dates ascending (the
same state results from either input order), bases at 2026-01-08, computes
lead time -7 for 2026-01-01 as a UTC-midnight calendar-day difference, and
stepping "next" from 2026-01-01 lands on 2026-01-08 where the "next"
control is disabled and a further "next" is a no-op. -/
theorem temporal_nav_scenario :
    Temporal.initDates (some scenarioIndexDoc) = some scenarioNavState ∧
    Temporal.initDates (some scenarioIndexDocRev) = some scenarioNavState ∧
    Temporal.strLtb "2026-01-01" "2026-01-08" = true ∧
    Temporal.leadOf (Temporal.selectDate scenarioNavState "2026-01-01")
        = some (-7) ∧
    Temporal.diffDays "2026-01-01" "2026-01-08" = some (-7) ∧
    Temporal.nextClick (Temporal.selectDate scenarioNavState "2026-01-01")
        = scenarioNavState ∧
    (Temporal.setDateControls scenarioNavState).nextDisabled = true ∧
    Temporal.nextClick scenarioNavState = scenarioNavState := by
  refine ⟨by decide, by decide, by decide, by decide, by decide, by decide,
    by decide, by decide⟩

/-- C4: `leadFade(d) = clamp(1 - d/46, 0.35, 1.0)` for every integer day
count, with `leadFade(0) = 1`, `leadFade(46) = 0.35`, `leadFade(92) = 0.35`,
the 0.35 floor for every `d ≥ 30`, and — in the temporal variant — every
opacity the style deriver produces at `leadDays > 0` equal to the
zero-lead opacity multiplied by the fade. -/
theorem leadFade_clamp_and_fade_multiplication :
    (∀ d : ℤ, Temporal.leadFade (d : ℚ) = clampSpec (1 - (d : ℚ)/46) (7/20) 1) ∧
    Temporal.leadFade 0 = 1 ∧
    Temporal.leadFade 46 = 7/20 ∧
    Temporal.leadFade 92 = 7/20 ∧
    (∀ d : ℤ, 30 ≤ d → Temporal.leadFade (d : ℚ) = 7/20) ∧
    (∀ (key : Temporal.LayerKey) (f : Option Json) (d : ℚ), 0 < d →
      (Temporal.geojsonStyleFor key f d).opacity
          = (Temporal.geojsonStyleFor key f 0).opacity * Temporal.leadFade d ∧
      (Temporal.geojsonStyleFor key f d).fillOpacity
          = (Temporal.geojsonStyleFor key f 0).fillOpacity.map
              (fun o => o * Temporal.leadFade d)) := by
  have hf1 : Temporal.leadFade 0 = 1 := by
    norm_num [Temporal.leadFade, jsMax, jsMin]
  refine ⟨?_, hf1, ?_, ?_, ?_, ?_⟩
  · intro d
    simp [Temporal.leadFade, clampSpec, jsMax, jsMin, max_def, min_def]
  · norm_num [Temporal.leadFade, jsMax, jsMin]
  · norm_num [Temporal.leadFade, jsMax, jsMin]
  · intro d hd
    have hq : (30 : ℚ) ≤ (d : ℚ) := by exact_mod_cast hd
    simp only [Temporal.leadFade, jsMin, jsMax]
    split_ifs <;> linarith
  · intro key f d hd
    have hdd : jsMax 0 d = d := by simp [jsMax, hd.le]
    have h0 : jsMax 0 (0 : ℚ) = 0 := by norm_num [jsMax]
    cases key <;>
      refine ⟨?_, ?_⟩ <;>
        simp [Temporal.geojsonStyleFor, Temporal.LAYER_CONFIG, hdd, h0, hf1]

/-- Witness for C4: the floor holds at day 46 and the hotspot fill fades
multiplicatively at a positive lead. -/
theorem leadFade_clamp_and_fade_multiplication_witness :
    Temporal.leadFade ((46 : ℤ) : ℚ) = 7/20 ∧
    (Temporal.geojsonStyleFor Temporal.LayerKey.hotspots none 7).opacity
      = (Temporal.geojsonStyleFor Temporal.LayerKey.hotspots none 0).opacity
          * Temporal.leadFade 7 := by
  obtain ⟨-, -, -, -, h5, h6⟩ := leadFade_clamp_and_fade_multiplication
  exact ⟨h5 46 (by norm_num),
    (h6 Temporal.LayerKey.hotspots none 7 (by norm_num)).1⟩

/-- Monotonicity: `clamp01` is monotone on numeric inputs. -/
theorem clamp01_num_mono {x y : ℚ} (h : x ≤ y) :
    clamp01 (some (.num x)) ≤ clamp01 (some (.num y)) := by
  simp only [clamp01, Json.toNumber, jsMax, jsMin]
  split_ifs <;> linarith

/-- C8: the risk ramp is a five-step function with `>=` threshold
comparisons after clamping: its darkness index is monotone, 0.9 maps to the
darkest fixed color and 0.1 to the palest (distinct values), boundary input
0.8 selects the same (higher) bucket as 0.85 while 0.79999 differs, and
every input lands on exactly one of the five fixed ramp colors. -/
theorem risk_ramp_step_monotone :
    (∀ x y : ℚ, x ≤ y →
      rampIndex (App.riskColor (some (.num x)))
        ≤ rampIndex (App.riskColor (some (.num y)))) ∧
    App.riskColor (some (.num (9/10))) = "#7f0000" ∧
    App.riskColor (some (.num (1/10))) = "#fee0d2" ∧
    "#7f0000" ≠ "#fee0d2" ∧
    App.riskColor (some (.num (4/5))) = "#7f0000" ∧
    App.riskColor (some (.num (17/20))) = App.riskColor (some (.num (4/5))) ∧
    App.riskColor (some (.num (79999/100000))) ≠ App.riskColor (some (.num (4/5))) ∧
    (∀ v : Option Json, App.riskColor v ∈ riskRamp) := by
  refine ⟨?_, ?_, ?_, by decide, ?_, ?_, ?_, ?_⟩
  · intro x y hxy
    have hc := clamp01_num_mono hxy
    simp only [App.riskColor]
    split_ifs <;> first | decide | linarith
  · norm_num [App.riskColor, clamp01, Json.toNumber, jsMax, jsMin]
  · norm_num [App.riskColor, clamp01, Json.toNumber, jsMax, jsMin]
  · norm_num [App.riskColor, clamp01, Json.toNumber, jsMax, jsMin]
  · norm_num [App.riskColor, clamp01, Json.toNumber, jsMax, jsMin]
  · norm_num [App.riskColor, clamp01, Json.toNumber, jsMax, jsMin]
    decide
  · intro v
    simp only [App.riskColor]
    split_ifs <;> simp [riskRamp]

/-- Witness for C8 at 0.1 ≤ 0.9: the darkness index is non-decreasing. -/
theorem risk_ramp_step_monotone_witness :
    rampIndex (App.riskColor (some (.num (1/10))))
      ≤ rampIndex (App.riskColor (some (.num (9/10)))) :=
  risk_ramp_step_monotone.1 (1/10) (9/10) (by norm_num)

/-- The nullish-coalescing default fires on `undefined` and on `null`. -/
theorem nullishOr_of_nullish (v : Option Json) (d : Json)
    (h : v = none ∨ v = some Json.null) : nullishOr v d = d := by
  rcases h with h | h <;> rw [h] <;> rfl

/-- A present value whose `Number()` is NaN is in particular not null, so
the nullish-coalescing default passes it through unchanged. -/
theorem nullishOr_of_toNumber_none (v : Option Json) (j d : Json)
    (hv : v = some j) (hn : j.toNumber = none) : nullishOr v d = j := by
  rw [hv]
  cases j
  · simp [Json.toNumber] at hn
  all_goals rfl

/-- The presence ramp depends on its input only through `clamp01`. -/
theorem presenceColor_congr_clamp (u v : Option Json)
    (h : clamp01 u = clamp01 v) : App.presenceColor u = App.presenceColor v := by
  simp only [App.presenceColor, h]

/-- The risk ramp depends on its input only through `clamp01`. -/
theorem riskColor_congr_clamp (u v : Option Json)
    (h : clamp01 u = clamp01 v) : App.riskColor u = App.riskColor v := by
  simp only [App.riskColor, h]

/-- Unfolding of `styleFor` at the corridors (line) key. -/
theorem styleFor_corridors (f : Option Json) :
    App.styleFor .corridors f =
      { weight := 2 + 6 * clamp01 (some (nullishOr (featureProp f "w") (Json.num (1/2)))),
        color := some "#c7d2fe", opacity := 9/10, fillColor := none,
        fillOpacity := none } := rfl

/-- Unfolding of `styleFor` at the presence (default polygon) key. -/
theorem styleFor_presence (f : Option Json) :
    App.styleFor .presence f =
      { weight := 1, color := some "#fff", opacity := 9/50,
        fillColor := some (App.presenceColor
          (some (nullishOr (featureProp f "p") (Json.num (3/10))))),
        fillOpacity := some (7/20) } := rfl

/-- Unfolding of `styleFor` at the hotspots (risk polygon) key. -/
theorem styleFor_hotspots (f : Option Json) :
    App.styleFor .hotspots f =
      { weight := 1, color := some "#fff", opacity := 1/4,
        fillColor := some (App.riskColor
          (some (nullishOr (featureProp f "risk") (Json.num (3/10))))),
        fillOpacity := some (9/20) } := rfl

/-- C3 counterexample: the original claim fails twice over. A detection
feature with no `conf` property receives the default confidence 0.5 — marker
radius 3 + 6·0.5 = 6 — not the claimed 0.3 point default (radius 4.8); and a
feature whose intensity property holds a present non-numeric value (a plain
object, NaN under `Number()`) is not replaced by any per-layer default —
`clamp01` coerces it to 0 — for line weight, area intensity and point
confidence alike. -/
theorem point_intensity_default_counterexample :
    ((App.pointMarkerFor (some featureNoProps)).radius = 6 ∧
      (App.pointMarkerFor (some featureNoProps)).radius ≠ 3 + 6 * (3/10)) ∧
    ((App.styleFor .corridors (some featureObjProps)).weight = 2 ∧
      (App.styleFor .corridors (some featureObjProps)).weight ≠ 2 + 6 * (1/2)) ∧
    ((App.styleFor .presence (some featureObjProps)).fillColor
        = some (App.presenceColor (some (.num 0))) ∧
      App.presenceColor (some (.num 0)) ≠ App.presenceColor (some (.num (3/10)))) ∧
    ((App.pointMarkerFor (some featureObjProps)).radius = 3 ∧
      (App.pointMarkerFor (some featureObjProps)).radius ≠ 3 + 6 * (3/10)) := by
  have hconf : App.pointConf (some featureNoProps) = none := rfl
  have hw : featureProp (some featureObjProps) "w" = some (Json.obj []) := rfl
  have hp : featureProp (some featureObjProps) "p" = some (Json.obj []) := rfl
  have hconfo : App.pointConf (some featureObjProps) = some (Json.obj []) := rfl
  refine ⟨⟨?_, ?_⟩, ⟨?_, ?_⟩, ⟨?_, ?_⟩, ⟨?_, ?_⟩⟩
  · norm_num [App.pointMarkerFor, hconf, nullishOr, clamp01, Json.toNumber,
      jsMax, jsMin]
  · norm_num [App.pointMarkerFor, hconf, nullishOr, clamp01, Json.toNumber,
      jsMax, jsMin]
  · norm_num [App.styleFor, App.LAYER_CONFIG, hw, nullishOr, clamp01,
      Json.toNumber, jsMax, jsMin]
  · norm_num [App.styleFor, App.LAYER_CONFIG, hw, nullishOr, clamp01,
      Json.toNumber, jsMax, jsMin]
  · rw [styleFor_presence]
    norm_num [hp, nullishOr, App.presenceColor, clamp01, Json.toNumber,
      jsMax, jsMin]
  · norm_num [App.presenceColor, clamp01, Json.toNumber, jsMax, jsMin]
    decide
  · norm_num [App.pointMarkerFor, hconfo, nullishOr, clamp01, Json.toNumber,
      jsMax, jsMin]
  · norm_num [App.pointMarkerFor, hconfo, nullishOr, clamp01, Json.toNumber,
      jsMax, jsMin]

/-- C3 (amended): every intensity value used by the style deriver is clamped
to [0,1]; an absent (undefined) or null value takes the fixed per-layer
default — 0.3 for polygon intensity, 0.5 for line weight, 0.5 for point
confidence in the main variant and 0.6 in the detections-only variant —
while a present non-numeric value (NaN under `Number()`) is coerced to 0 by
`clamp01` rather than replaced by the default, for line, area and point
layers alike. -/
theorem intensity_clamp_and_defaults :
    (∀ v : Option Json, 0 ≤ clamp01 v ∧ clamp01 v ≤ 1) ∧
    (∀ f, (featureProp f "w" = none ∨ featureProp f "w" = some Json.null) →
      (App.styleFor .corridors f).weight = 2 + 6 * (1/2 : ℚ)) ∧
    (∀ f, (featureProp f "p" = none ∨ featureProp f "p" = some Json.null) →
      (App.styleFor .presence f).fillColor
        = some (App.presenceColor (some (.num (3/10))))) ∧
    (∀ f, (featureProp f "risk" = none ∨ featureProp f "risk" = some Json.null) →
      (App.styleFor .hotspots f).fillColor
        = some (App.riskColor (some (.num (3/10))))) ∧
    (∀ f, (featureProp f "conf" = none ∨ featureProp f "conf" = some Json.null) →
      (App.pointMarkerFor f).radius = 3 + 6 * (1/2 : ℚ)) ∧
    (∀ f, (featureProp f "conf" = none ∨ featureProp f "conf" = some Json.null) →
      (Detect.detMarkerFor f).radius = 3 + 6 * (3/5 : ℚ)) ∧
    (∀ f j, featureProp f "w" = some j → j.toNumber = none →
      (App.styleFor .corridors f).weight = 2 + 6 * 0) ∧
    (∀ f j, featureProp f "p" = some j → j.toNumber = none →
      (App.styleFor .presence f).fillColor
        = some (App.presenceColor (some (.num 0)))) ∧
    (∀ f j, featureProp f "risk" = some j → j.toNumber = none →
      (App.styleFor .hotspots f).fillColor
        = some (App.riskColor (some (.num 0)))) ∧
    (∀ f j, featureProp f "conf" = some j → j.toNumber = none →
      (App.pointMarkerFor f).radius = 3 + 6 * 0) ∧
    (∀ f j, featureProp f "conf" = some j → j.toNumber = none →
      (Detect.detMarkerFor f).radius = 3 + 6 * 0) := by
  refine ⟨?_, ?_, ?_, ?_, ?_, ?_, ?_, ?_, ?_, ?_, ?_⟩
  · intro v
    rcases v with _ | j
    · norm_num [clamp01]
    · rcases hn : j.toNumber with _ | q
      · simp [clamp01, hn]
      · simp only [clamp01, hn, jsMax, jsMin]
        split_ifs <;> constructor <;> linarith
  · intro f h
    rcases h with h | h <;>
      norm_num [App.styleFor, App.LAYER_CONFIG, h, nullishOr, clamp01,
        Json.toNumber, jsMax, jsMin]
  · intro f h
    rcases h with h | h <;>
      simp [App.styleFor, App.LAYER_CONFIG, h, nullishOr]
  · intro f h
    rcases h with h | h <;>
      simp [App.styleFor, App.LAYER_CONFIG, h, nullishOr]
  · intro f h
    rcases h with h | h <;>
      norm_num [App.pointMarkerFor, App.pointConf, h, nullishOr, clamp01,
        Json.toNumber, jsMax, jsMin]
  · intro f h
    rcases h with h | h <;>
      norm_num [Detect.detMarkerFor, h, nullishOr, clamp01,
        Json.toNumber, jsMax, jsMin]
  · intro f j hj hnone
    have hnn : nullishOr (featureProp f "w") (Json.num 2⁻¹) = j :=
      nullishOr_of_toNumber_none _ j _ hj hnone
    have hz : clamp01 (some (nullishOr (featureProp f "w") (Json.num 2⁻¹))) = 0 := by
      rw [hnn]
      simp [clamp01, hnone]
    simp [App.styleFor, App.LAYER_CONFIG, hz]
  · intro f j hj hnone
    have hnn : nullishOr (featureProp f "p") (Json.num (3/10)) = j :=
      nullishOr_of_toNumber_none _ j _ hj hnone
    have hc : clamp01 (some j) = clamp01 (some (Json.num 0)) := by
      norm_num [clamp01, Json.toNumber, hnone, jsMax, jsMin]
    rw [styleFor_presence]
    show some (App.presenceColor (some (nullishOr (featureProp f "p") (Json.num (3/10)))))
        = some (App.presenceColor (some (Json.num 0)))
    rw [hnn]
    exact congrArg some (presenceColor_congr_clamp _ _ hc)
  · intro f j hj hnone
    have hnn : nullishOr (featureProp f "risk") (Json.num (3/10)) = j :=
      nullishOr_of_toNumber_none _ j _ hj hnone
    have hc : clamp01 (some j) = clamp01 (some (Json.num 0)) := by
      norm_num [clamp01, Json.toNumber, hnone, jsMax, jsMin]
    rw [styleFor_hotspots]
    show some (App.riskColor (some (nullishOr (featureProp f "risk") (Json.num (3/10)))))
        = some (App.riskColor (some (Json.num 0)))
    rw [hnn]
    exact congrArg some (riskColor_congr_clamp _ _ hc)
  · intro f j hj hnone
    have hj' : App.pointConf f = some j := hj
    have hnn : nullishOr (App.pointConf f) (Json.num 2⁻¹) = j :=
      nullishOr_of_toNumber_none _ j _ hj' hnone
    have hz : clamp01 (some (nullishOr (App.pointConf f) (Json.num 2⁻¹))) = 0 := by
      rw [hnn]
      simp [clamp01, hnone]
    simp [App.pointMarkerFor, hz]
  · intro f j hj hnone
    have hnn : nullishOr (featureProp f "conf") (Json.num (3/5)) = j :=
      nullishOr_of_toNumber_none _ j _ hj hnone
    have hz : clamp01 (some (nullishOr (featureProp f "conf") (Json.num (3/5)))) = 0 := by
      rw [hnn]
      simp [clamp01, hnone]
    norm_num [Detect.detMarkerFor, hz]

/-- Witness for C3 (amended): the line default fires on an explicit null
value, the detections-variant default 0.6 likewise, and an object-valued
confidence is coerced to 0. -/
theorem intensity_clamp_and_defaults_witness :
    (App.styleFor .corridors (some featureNullProps)).weight = 2 + 6 * (1/2 : ℚ) ∧
    (Detect.detMarkerFor (some featureNullProps)).radius = 3 + 6 * (3/5 : ℚ) ∧
    (App.pointMarkerFor (some featureObjProps)).radius = 3 + 6 * 0 := by
  obtain ⟨-, h2, -, -, -, h6, -, -, -, h10, -⟩ := intensity_clamp_and_defaults
  exact ⟨h2 (some featureNullProps) (Or.inr rfl),
    h6 (some featureNullProps) (Or.inr rfl),
    h10 (some featureObjProps) (Json.obj []) rfl rfl⟩

/-- Shape-validation failure leaves `renderNdviChart` at the format-error
status without replacing the chart (shared helper). -/
theorem renderNdviChart_shape_fail (chart : Option App.ChartData) (hist : Json)
    (h : ¬ histShapeOk hist) :
    App.renderNdviChart chart hist = (chart, App.histFormatErrorMsg) := by
  unfold App.renderNdviChart
  rcases hb : App.asArray (hist.get "bins") with _ | bins <;>
    rcases hc : App.asArray (hist.get "counts") with _ | counts
  · rfl
  · rfl
  · rfl
  · have hlen : bins.length ≠ counts.length + 1 :=
      fun hl => h ⟨bins, counts, hb, hc, hl⟩
    simp [hlen]

/-- C6 counterexample: in the detections-only variant, a document that
parses but lacks a `features` array produces the very same status message as
a missing document — the schema failure is not reported with a message
distinct from "not found". -/
theorem detections_format_message_counterexample :
    Detect.featuresOf (Json.obj [("type", Json.str "FeatureCollection")]) = none ∧
    (Detect.loadDetections badShapeDetectionsWorld true).2
        = Detect.notFoundOrInvalidMsg ∧
    (Detect.loadDetections allMissingWorld true).2
        = Detect.notFoundOrInvalidMsg ∧
    (Detect.loadDetections badShapeDetectionsWorld true).1 = none := by
  exact ⟨rfl, rfl, rfl, rfl⟩

/-- C6 (amended): a histogram document failing shape validation
(`bins`/`counts` not arrays or `bins.length ≠ counts.length + 1`) is rejected
with a format-error status distinct from the not-found message and no chart
is built from it; a detections GeoJSON document without a `features` array is
likewise rejected with no layer rendered, but through the combined
"not found (or invalid)" message that a missing document also produces. -/
theorem schema_rejection_behaviour :
    (∀ chart hist, ¬ histShapeOk hist →
      App.renderNdviChart chart hist = (chart, App.histFormatErrorMsg)) ∧
    App.histFormatErrorMsg ≠ App.ndviNotFoundMsg ∧
    (∀ world, fetchJSON world Detect.detectionsUrl = none →
      Detect.loadDetections world true = (none, Detect.notFoundOrInvalidMsg)) ∧
    (∀ world geo, fetchJSON world Detect.detectionsUrl = some geo →
      geo.truthy = true → Detect.featuresOf geo = none →
      Detect.loadDetections world true = (none, Detect.notFoundOrInvalidMsg)) := by
  refine ⟨renderNdviChart_shape_fail, by decide, ?_, ?_⟩
  · intro world h
    simp [Detect.loadDetections, h]
  · intro world geo h htr hfeat
    simp [Detect.loadDetections, h, htr, hfeat]

/-- Witness for C6 (amended): a histogram with 2 edges against 2 counts is
rejected with the format-error text and the previous chart survives. -/
theorem schema_rejection_behaviour_witness :
    App.renderNdviChart (some ⟨["0.50"], [Json.num 5]⟩) badHistDoc
      = (some ⟨["0.50"], [Json.num 5]⟩, App.histFormatErrorMsg) := by
  refine schema_rejection_behaviour.1 _ badHistDoc ?_
  rintro ⟨bins, counts, hb, hc, hlen⟩
  have hb' : App.asArray (badHistDoc.get "bins")
      = some [Json.num 0, Json.num 1] := rfl
  have hc' : App.asArray (badHistDoc.get "counts")
      = some [Json.num 5, Json.num 6] := rfl
  rw [hb'] at hb
  rw [hc'] at hc
  cases hb
  cases hc
  simp at hlen

/-- C10: a histogram document that parses but fails shape validation leaves
the chart state unchanged (the previously rendered chart stays alongside the
format-error text), whereas a missing/unfetchable histogram document
destroys the chart and resets it to null with the not-found text; a truthy
document is handed to `renderNdviChart`. -/
theorem chart_state_on_errors :
    (∀ chart hist, ¬ histShapeOk hist →
      (App.renderNdviChart chart hist).1 = chart ∧
      (App.renderNdviChart chart hist).2 = App.histFormatErrorMsg) ∧
    (∀ world chart, fetchJSON world App.ndviHistUrl = none →
      App.loadNdviHistogram world chart = (none, App.ndviNotFoundMsg)) ∧
    (∀ world chart hist, fetchJSON world App.ndviHistUrl = some hist →
      hist.truthy = false →
      App.loadNdviHistogram world chart = (none, App.ndviNotFoundMsg)) ∧
    (∀ world chart hist, fetchJSON world App.ndviHistUrl = some hist →
      hist.truthy = true →
      App.loadNdviHistogram world chart = App.renderNdviChart chart hist) := by
  refine ⟨?_, ?_, ?_, ?_⟩
  · intro chart hist h
    rw [renderNdviChart_shape_fail chart hist h]
    exact ⟨rfl, rfl⟩
  · intro world chart h
    simp [App.loadNdviHistogram, h]
  · intro world chart hist h htr
    simp [App.loadNdviHistogram, h, htr]
  · intro world chart hist h htr
    simp [App.loadNdviHistogram, h, htr]

/-- Witness for C10: with every request failing, the chart is cleared and
the not-found text shown; with a shape-invalid document, a previous chart is
kept. -/
theorem chart_state_on_errors_witness :
    App.loadNdviHistogram allMissingWorld (some ⟨["0.50"], [Json.num 5]⟩)
      = (none, App.ndviNotFoundMsg) :=
  chart_state_on_errors.2.1 allMissingWorld (some ⟨["0.50"], [Json.num 5]⟩) rfl
